import Mathlib

/-!
Verification of the rustengan echo / unique-id node
(`src/rustengan/src/main.rs`).

The development shallowly embeds the node's data model and its
`step` state machine:

* `Payload`, `MessageBody`, `Message` mirror the serde-derived Rust types;
* `Json` is a JSON value tree, and `serializeJson` / `parseMessage` model
  the behaviour of the serde derives on those types (internally tagged
  enum with tag `type`, snake-cased variant names, `#[serde(flatten)]`
  on the payload, `Option` fields serialized as `null` when `None` and
  accepted as missing on input);
* `gen_unique_id` embeds `EchoNode::gen_unique_id`, with the wall-clock
  seconds passed explicitly;
* `step` embeds `EchoNode::step`; the output stream is modelled as a list
  of written chunks together with a schedule of write failures
  (`true` = that write attempt fails).  Note that in the source the
  `Result` of `serde_json::to_writer` is discarded (no `?`), while the
  newline write is propagated with `?`; `step` reproduces this faithfully.
* `run` embeds the `main` loop over a list of input messages.
-/

/-! ### Decimal rendering of natural numbers (`usize::to_string`) -/

/-- Little-endian decimal digit characters of `n`; `fuel` bounds recursion. -/
def natToDigitsRev : Nat → Nat → List Char
  | 0, _ => []
  | fuel+1, n =>
      Nat.digitChar (n % 10) ::
        (if n / 10 = 0 then [] else natToDigitsRev fuel (n / 10))

/-- Decimal rendering of a natural number, as produced by `usize::to_string`
(no sign, no padding, no leading zeros except for `"0"` itself). -/
def natToString (n : Nat) : String :=
  String.mk (natToDigitsRev (n + 1) n).reverse

/-- Numeric value of a decimal digit character. -/
def digitVal (c : Char) : Nat := c.toNat - 48

/-- Decode a little-endian decimal digit character list back to a number. -/
def decodeDigitsRev : List Char → Nat
  | [] => 0
  | c :: cs => digitVal c + 10 * decodeDigitsRev cs

theorem digitVal_digitChar : ∀ d : Nat, d < 10 → digitVal (Nat.digitChar d) = d := by
  decide

theorem decode_natToDigitsRev :
    ∀ fuel n : Nat, n < 10 ^ fuel → decodeDigitsRev (natToDigitsRev fuel n) = n := by
  intro fuel
  induction fuel with
  | zero =>
      intro n hn
      interval_cases n
      rfl
  | succ fuel ih =>
      intro n hn
      by_cases h0 : n / 10 = 0
      · have hlt : n < 10 := by omega
        simp only [natToDigitsRev, h0, if_true, decodeDigitsRev]
        rw [digitVal_digitChar _ (Nat.mod_lt _ (by omega))]
        omega
      · have hdiv : n / 10 < 10 ^ fuel := by
          apply Nat.div_lt_of_lt_mul
          have hps : 10 ^ (fuel + 1) = 10 * 10 ^ fuel := by ring
          omega
        simp only [natToDigitsRev, h0, if_false, decodeDigitsRev]
        rw [digitVal_digitChar _ (Nat.mod_lt _ (by omega)), ih _ hdiv]
        omega

theorem natToString_inj {a b : Nat} (h : natToString a = natToString b) : a = b := by
  have ha : a < 10 ^ (a + 1) :=
    Nat.lt_trans (Nat.lt_pow_self (by omega) a)
      (Nat.pow_lt_pow_succ (by omega))
  have hb : b < 10 ^ (b + 1) :=
    Nat.lt_trans (Nat.lt_pow_self (by omega) b)
      (Nat.pow_lt_pow_succ (by omega))
  have hdata : (natToDigitsRev (a + 1) a).reverse = (natToDigitsRev (b + 1) b).reverse :=
    congrArg String.data h
  have hlists : natToDigitsRev (a + 1) a = natToDigitsRev (b + 1) b :=
    List.reverse_injective hdata
  calc a = decodeDigitsRev (natToDigitsRev (a + 1) a) := (decode_natToDigitsRev _ _ ha).symm
    _ = decodeDigitsRev (natToDigitsRev (b + 1) b) := by rw [hlists]
    _ = b := decode_natToDigitsRev _ _ hb

example : natToString 0 = "0" := rfl
example : natToString 123 = "123" := rfl

/-! ### Protocol data model (the serde-derived Rust types) -/

/-- `enum Payload`, internally tagged with `type`, variant names snake-cased. -/
inductive Payload where
  | Echo (echo : String)
  | EchoOk (echo : String)
  | Init (node_id : String) (node_ids : List String)
  | InitOk
  | Generate
  | GenerateOk (id : String)
deriving DecidableEq

/-- `struct MessageBody`: optional correlation ids plus a flattened payload. -/
structure MessageBody where
  msg_id : Option Nat
  in_reply_to : Option Nat
  payload : Payload
deriving DecidableEq

/-- `struct Message`: the wire envelope. -/
structure Message where
  src : String
  dest : String
  body : MessageBody
deriving DecidableEq

/-- True on the request variants this node serves. -/
def Payload.isRequest : Payload → Bool
  | .Init _ _ | .Echo _ | .Generate => true
  | _ => false

/-- True on the `_ok` reply variants. -/
def Payload.isOk : Payload → Bool
  | .InitOk | .EchoOk _ | .GenerateOk _ => true
  | _ => false

/-- True on exactly the `init` and `echo` request variants. -/
def Payload.isInitOrEcho : Payload → Bool
  | .Init _ _ | .Echo _ => true
  | _ => false

/-! ### JSON values and the serde serialization model -/

/-- JSON value tree (the fragment the protocol uses). -/
inductive Json where
  | null
  | num (n : Nat)
  | str (s : String)
  | arr (xs : List Json)
  | obj (fields : List (String × Json))

/-- First-match lookup of a key in a JSON object field list. -/
def jsonLookup : List (String × Json) → String → Option Json
  | [], _ => none
  | (k, v) :: rest, key => if k = key then some v else jsonLookup rest key

/-- Lookup of a key in a JSON value (objects only). -/
def Json.lookup : Json → String → Option Json
  | .obj fields, key => jsonLookup fields key
  | _, _ => none

/-- serde serializes `Option<usize>` as `null` when `None`
(no `skip_serializing_if` attribute is present on the source fields). -/
def serializeOptNat : Option Nat → Json
  | none => Json.null
  | some n => Json.num n

/-- Fields contributed by the internally tagged payload:
the `type` tag (snake-cased variant name) followed by the variant fields. -/
def payloadFields : Payload → List (String × Json)
  | .Echo echo => [("type", .str "echo"), ("echo", .str echo)]
  | .EchoOk echo => [("type", .str "echo_ok"), ("echo", .str echo)]
  | .Init node_id node_ids =>
      [("type", .str "init"), ("node_id", .str node_id),
       ("node_ids", .arr (node_ids.map Json.str))]
  | .InitOk => [("type", .str "init_ok")]
  | .Generate => [("type", .str "generate")]
  | .GenerateOk id => [("type", .str "generate_ok"), ("id", .str id)]

/-- Serialization of a `Message` as performed by the serde derives:
a flattened body object whose `msg_id` / `in_reply_to` fields are always
emitted (as `null` when absent), with the payload fields as siblings. -/
def serializeJson (m : Message) : Json :=
  .obj [("src", .str m.src), ("dest", .str m.dest),
        ("body", .obj ([("msg_id", serializeOptNat m.body.msg_id),
                        ("in_reply_to", serializeOptNat m.body.in_reply_to)]
                       ++ payloadFields m.body.payload))]

/-- Deserialization of an optional integer field: a missing field and an
explicit `null` both give `none` (serde's default handling of `Option`). -/
def parseOptNat : Option Json → Except String (Option Nat)
  | none => .ok none
  | some .null => .ok none
  | some (.num n) => .ok (some n)
  | some _ => .error "invalid type: expected an integer"

/-- Deserialization of a required string field. -/
def parseStr : Option Json → Except String String
  | some (.str s) => .ok s
  | _ => .error "invalid type: expected a string"

/-- Deserialization of a list of strings. -/
def parseStrListAux : List Json → Except String (List String)
  | [] => .ok []
  | .str s :: rest =>
      match parseStrListAux rest with
      | .ok tail => .ok (s :: tail)
      | .error e => .error e
  | _ :: _ => .error "invalid type: expected a string"

/-- Deserialization of a required string-array field. -/
def parseStrList : Option Json → Except String (List String)
  | some (.arr xs) => parseStrListAux xs
  | _ => .error "invalid type: expected a sequence"

/-- Deserialization of the internally tagged payload from the flattened
body object: dispatch on the `type` tag, an unknown or missing tag fails. -/
def parsePayload (body : Json) : Except String Payload :=
  match body.lookup "type" with
  | some (.str "echo") =>
      match parseStr (body.lookup "echo") with
      | .ok e => .ok (.Echo e)
      | .error e => .error e
  | some (.str "echo_ok") =>
      match parseStr (body.lookup "echo") with
      | .ok e => .ok (.EchoOk e)
      | .error e => .error e
  | some (.str "init") =>
      match parseStr (body.lookup "node_id") with
      | .ok nid =>
          match parseStrList (body.lookup "node_ids") with
          | .ok nids => .ok (.Init nid nids)
          | .error e => .error e
      | .error e => .error e
  | some (.str "init_ok") => .ok .InitOk
  | some (.str "generate") => .ok .Generate
  | some (.str "generate_ok") =>
      match parseStr (body.lookup "id") with
      | .ok i => .ok (.GenerateOk i)
      | .error e => .error e
  | some (.str _) => .error "unknown variant"
  | _ => .error "missing field type"

/-- Deserialization of a full `Message` from a JSON value. -/
def parseMessage (j : Json) : Except String Message :=
  match parseStr (j.lookup "src") with
  | .error e => .error e
  | .ok src =>
    match parseStr (j.lookup "dest") with
    | .error e => .error e
    | .ok dest =>
      match j.lookup "body" with
      | some body =>
        match parseOptNat (body.lookup "msg_id") with
        | .error e => .error e
        | .ok mid =>
          match parseOptNat (body.lookup "in_reply_to") with
          | .error e => .error e
          | .ok irt =>
            match parsePayload body with
            | .error e => .error e
            | .ok p =>
                .ok { src := src, dest := dest,
                      body := { msg_id := mid, in_reply_to := irt, payload := p } }
      | _ => .error "missing field body"

/-- The value of a field of the serialized body, if any. -/
def bodyField (j : Json) (key : String) : Option Json :=
  match j.lookup "body" with
  | some b => b.lookup key
  | none => none

/-! ### Unique-id generator (`EchoNode::gen_unique_id`) -/

/-- `EchoNode::gen_unique_id`: the string
`format!("{}_{}_{}", curr_ts, dest_node_id, self.id)`, with the wall-clock
whole seconds `curr_ts` passed explicitly. -/
def gen_unique_id (curr_ts : Nat) (dest_node_id : String) (id : Nat) : String :=
  natToString curr_ts ++ "_" ++ dest_node_id ++ "_" ++ natToString id

/-- Modelled from the spec: "take the current wall-clock time as whole
seconds since a fixed epoch; produce the string
`{seconds}_{destination_node_id}_{node_numeric_id}` (three fields joined by
underscore, in that order)", with no padding or width fixing of any
component. -/
def specGenerateId (seconds : Nat) (destination_node_id : String)
    (node_numeric_id : Nat) : String :=
  natToString seconds ++ "_" ++ destination_node_id ++ "_" ++ natToString node_numeric_id

/-! ### Node state machine (`EchoNode::step` and the `main` loop) -/

/-- `struct EchoNode`: the node's only state is the counter `id`. -/
structure EchoNode where
  id : Nat
deriving DecidableEq

/-- One unit written to the output stream: either a serialized message
(what `serde_json::to_writer` writes) or the `b"\n"` terminator. -/
inductive Chunk where
  | jsonChunk (j : Json)
  | newline

/-- `EchoNode::step`.  The output stream is modelled by the list of chunks
successfully written; `sched` is the failure schedule of the stream's
successive write attempts (`true` = that write fails; an exhausted schedule
means success).  Faithful to the source: the `Result` of
`serde_json::to_writer` is DISCARDED (the source has no `?` on that call),
the newline write is propagated with `?`, and the counter increment
`self.id += 1` happens after the newline write succeeds. -/
def step (node : EchoNode) (input : Message) (now : Nat) (sched : List Bool) :
    Except String Unit × EchoNode × List Chunk :=
  match input.body.payload with
  | .Init _ _ =>
      let reply : Message :=
        { src := input.dest, dest := input.src,
          body := { msg_id := some node.id,
                    in_reply_to :=
                      match input.body.msg_id with
                      | none => none
                      | some input_msg_id => some input_msg_id,
                    payload := .InitOk } }
      let w1fail := sched.headD false
      let w2fail := (sched.drop 1).headD false
      let written := if w1fail then [] else [Chunk.jsonChunk (serializeJson reply)]
      if w2fail then
        (.error "Failed to write newline to output: stdout.", node, written)
      else
        (.ok (), { id := node.id + 1 }, written ++ [Chunk.newline])
  | .Echo echo =>
      let reply : Message :=
        { src := input.dest, dest := input.src,
          body := { msg_id := some node.id,
                    in_reply_to :=
                      match input.body.msg_id with
                      | none => none
                      | some input_msg_id => some input_msg_id,
                    payload := .EchoOk echo } }
      let w1fail := sched.headD false
      let w2fail := (sched.drop 1).headD false
      let written := if w1fail then [] else [Chunk.jsonChunk (serializeJson reply)]
      if w2fail then
        (.error "Failed to write newline to output: stdout.", node, written)
      else
        (.ok (), { id := node.id + 1 }, written ++ [Chunk.newline])
  | .EchoOk _ =>
      (.error "Received unexpected EchoOk message!", node, [])
  | .InitOk =>
      (.error "Received unexpected InitOk message!", node, [])
  | .Generate =>
      let unique_id := gen_unique_id now input.dest node.id
      let reply : Message :=
        { src := input.dest, dest := input.src,
          body := { msg_id := some node.id,
                    in_reply_to :=
                      match input.body.msg_id with
                      | none => none
                      | some input_msg_id => some input_msg_id,
                    payload := .GenerateOk unique_id } }
      let w1fail := sched.headD false
      let w2fail := (sched.drop 1).headD false
      let written := if w1fail then [] else [Chunk.jsonChunk (serializeJson reply)]
      if w2fail then
        (.error "Failed to write newline to output: stdout.", node, written)
      else
        (.ok (), { id := node.id + 1 }, written ++ [Chunk.newline])
  | .GenerateOk _ =>
      (.error "Received unexpected GenerateOk message!", node, [])

/-- The `bail!` message produced on an `_ok` input variant (empty on
the request variants, which do not bail). -/
def okVariantError : Payload → String
  | .EchoOk _ => "Received unexpected EchoOk message!"
  | .InitOk => "Received unexpected InitOk message!"
  | .GenerateOk _ => "Received unexpected GenerateOk message!"
  | _ => ""

/-- The reply `step` constructs for a request input (helper used to state
lemmas; `step` itself builds it inline, per branch, as the source does). -/
def mkReply (node : EchoNode) (input : Message) (now : Nat) : Message :=
  { src := input.dest, dest := input.src,
    body := { msg_id := some node.id,
              in_reply_to := input.body.msg_id,
              payload :=
                match input.body.payload with
                | .Init _ _ => .InitOk
                | .Echo echo => .EchoOk echo
                | .Generate => .GenerateOk (gen_unique_id now input.dest node.id)
                | p => p } }

/-- The `main` loop: feed messages (each with the wall-clock second at
which it is processed) to `step` in order, with all writes succeeding,
stopping at the first failure. -/
def run : EchoNode → List (Message × Nat) → Except String Unit × EchoNode × List Chunk
  | node, [] => (.ok (), node, [])
  | node, (m, now) :: rest =>
    match step node m now [] with
    | (.ok _, node1, chunks) =>
        match run node1 rest with
        | (r, node2, chunks2) => (r, node2, chunks ++ chunks2)
    | (.error e, node1, chunks) => (.error e, node1, chunks)

/-- The serialized messages written to the output stream, in order. -/
def replies : List Chunk → List Json
  | [] => []
  | Chunk.jsonChunk j :: rest => j :: replies rest
  | Chunk.newline :: rest => replies rest

/-- The `msg_id` field of a serialized message's body. -/
def replyMsgId (j : Json) : Option Json :=
  bodyField j "msg_id"

/-- Concrete sample messages used by witnesses. -/
def sampleInit : Message :=
  { src := "c1", dest := "n1",
    body := { msg_id := some 1, in_reply_to := none,
              payload := .Init "n1" ["n1"] } }

def sampleEcho : Message :=
  { src := "c1", dest := "n1",
    body := { msg_id := some 2, in_reply_to := none,
              payload := .Echo "hello" } }

def sampleEchoOk : Message :=
  { src := "c1", dest := "n1",
    body := { msg_id := some 3, in_reply_to := some 1,
              payload := .EchoOk "hello" } }

def sampleNoId : Message :=
  { src := "c1", dest := "n1",
    body := { msg_id := none, in_reply_to := none,
              payload := .InitOk } }

def sampleEchoReply : Message :=
  { src := "n1", dest := "c1",
    body := { msg_id := some 0, in_reply_to := some 2,
              payload := .EchoOk "hello" } }

/-! ### Shared helper lemmas -/

theorem parseStrListAux_map (xs : List String) :
    parseStrListAux (xs.map Json.str) = .ok xs := by
  induction xs with
  | nil => rfl
  | cons x xs ih => simp [List.map, parseStrListAux, ih]

theorem gen_unique_id_counter_inj {ts : Nat} {d : String} {c1 c2 : Nat}
    (h : gen_unique_id ts d c1 = gen_unique_id ts d c2) : c1 = c2 := by
  have hd := congrArg String.data h
  simp only [gen_unique_id, String.data_append, List.append_assoc] at hd
  have h1 := List.append_cancel_left hd
  have h2 := List.append_cancel_left h1
  have h3 := List.append_cancel_left h2
  have h4 := List.append_cancel_left h3
  exact natToString_inj (String.ext h4)

theorem gen_unique_id_full_inj {ts : Nat} {d1 d2 : String} {c1 c2 : Nat}
    (hc : natToString c1 = natToString c2)
    (h : gen_unique_id ts d1 c1 = gen_unique_id ts d2 c2) : d1 = d2 ∧ c1 = c2 := by
  have hcc : c1 = c2 := natToString_inj hc
  subst hcc
  have hd := congrArg String.data h
  simp only [gen_unique_id, String.data_append, List.append_assoc] at hd
  have h1 := List.append_cancel_left (List.append_cancel_left hd)
  have h2 : d1.data = d2.data := by
    have h1' : d1.data ++ ("_".data ++ (natToString c1).data)
        = d2.data ++ ("_".data ++ (natToString c1).data) := by
      simpa [List.append_assoc] using h1
    exact List.append_cancel_right h1'
  exact ⟨String.ext h2, rfl⟩

theorem step_request_eq (node : EchoNode) (m : Message) (now : Nat)
    (h : m.body.payload.isRequest = true) :
    step node m now [] =
      (.ok (), { id := node.id + 1 },
        [Chunk.jsonChunk (serializeJson (mkReply node m now)), Chunk.newline]) := by
  obtain ⟨s, d, mid, irt, p⟩ := m
  cases p <;> first
    | exact Bool.noConfusion h
    | (cases mid <;> rfl)

theorem replyMsgId_serialize (r : Message) :
    replyMsgId (serializeJson r) = some (serializeOptNat r.body.msg_id) := rfl

theorem replyInReplyTo_serialize (r : Message) :
    bodyField (serializeJson r) "in_reply_to" = some (serializeOptNat r.body.in_reply_to) := rfl

theorem parseMessage_missing_msg_id (s d : String) (fields : List (String × Json))
    (m : Message)
    (hmiss : jsonLookup fields "msg_id" = none)
    (hok : parseMessage (Json.obj [("src", Json.str s), ("dest", Json.str d),
             ("body", Json.obj fields)]) = .ok m) :
    m.body.msg_id = none := by
  unfold parseMessage at hok
  simp [Json.lookup, jsonLookup, parseStr, hmiss, parseOptNat] at hok
  split at hok
  · exact Except.noConfusion hok
  · split at hok
    · exact Except.noConfusion hok
    · injection hok with h
      subst h
      rfl

theorem parseMessage_missing_in_reply_to (s d : String) (fields : List (String × Json))
    (m : Message)
    (hmiss : jsonLookup fields "in_reply_to" = none)
    (hok : parseMessage (Json.obj [("src", Json.str s), ("dest", Json.str d),
             ("body", Json.obj fields)]) = .ok m) :
    m.body.in_reply_to = none := by
  unfold parseMessage at hok
  simp [Json.lookup, jsonLookup, parseStr, hmiss, parseOptNat] at hok
  split at hok
  · exact Except.noConfusion hok
  · split at hok
    · exact Except.noConfusion hok
    · injection hok with h
      subst h
      rfl

/-! ### Claim theorems -/

/-- C1: the claim states that a failed write of the serialized reply makes
`step` fail with the counter unchanged.  The code violates this: the
`Result` of `serde_json::to_writer` is discarded (the call carries a
`.context(...)` but no `?`), so when the reply write fails (schedule
`[true]`) and the newline write succeeds, `step` returns success, writes
only the newline, and still advances the counter from 0 to 1. -/
theorem step_reply_write_failure_ignored :
    step { id := 0 } sampleInit 0 [true] = (.ok (), { id := 1 }, [Chunk.newline]) := rfl

/-- C2 counterexample: the claim states that absent `msg_id` /
`in_reply_to` are omitted entirely from the serialized output and never
emitted as `null`; but serializing a message with both fields absent
produces a body in which both fields are present with value `null`
(the source has no `skip_serializing_if` on either `Option` field). -/
theorem serialize_emits_null_for_absent_ids :
    bodyField (serializeJson sampleNoId) "msg_id" = some Json.null ∧
    bodyField (serializeJson sampleNoId) "in_reply_to" = some Json.null :=
  ⟨rfl, rfl⟩

/-- C2 (amended): when `msg_id` (resp. `in_reply_to`) is absent, `serialize`
emits the field with value `null` rather than omitting it; and `parse`
accepts input in which either field is missing, yielding the absent value. -/
theorem optional_ids_null_on_output_accepted_missing_on_input :
    (∀ m : Message, m.body.msg_id = none →
       bodyField (serializeJson m) "msg_id" = some Json.null) ∧
    (∀ m : Message, m.body.in_reply_to = none →
       bodyField (serializeJson m) "in_reply_to" = some Json.null) ∧
    (∀ (s d : String) (fields : List (String × Json)) (m : Message),
       jsonLookup fields "msg_id" = none →
       parseMessage (Json.obj [("src", Json.str s), ("dest", Json.str d),
         ("body", Json.obj fields)]) = .ok m →
       m.body.msg_id = none) ∧
    (∀ (s d : String) (fields : List (String × Json)) (m : Message),
       jsonLookup fields "in_reply_to" = none →
       parseMessage (Json.obj [("src", Json.str s), ("dest", Json.str d),
         ("body", Json.obj fields)]) = .ok m →
       m.body.in_reply_to = none) := by
  refine ⟨?_, ?_, parseMessage_missing_msg_id, parseMessage_missing_in_reply_to⟩
  · intro m hm
    have h1 : bodyField (serializeJson m) "msg_id"
        = some (serializeOptNat m.body.msg_id) := rfl
    rw [h1, hm]
    rfl
  · intro m hm
    have h1 : bodyField (serializeJson m) "in_reply_to"
        = some (serializeOptNat m.body.in_reply_to) := rfl
    rw [h1, hm]
    rfl

/-- C2 witness: concrete instances of the amended claim — the serialized
form of `sampleNoId` carries `msg_id = null`, and parsing a body with no
`msg_id` key yields an absent `msg_id`. -/
theorem optional_ids_witness :
    bodyField (serializeJson sampleNoId) "msg_id" = some Json.null ∧
    sampleNoId.body.msg_id = none :=
  ⟨optional_ids_null_on_output_accepted_missing_on_input.1 sampleNoId rfl,
   optional_ids_null_on_output_accepted_missing_on_input.2.2.1 "c1" "n1"
     [("type", Json.str "init_ok")] sampleNoId rfl rfl⟩

/-- C3: on any input whose payload is an `_ok` variant (`init_ok`,
`echo_ok`, `generate_ok`), `step` fails with the `bail!` message naming the
unexpected variant, emits nothing, and leaves the counter unchanged —
whatever the write-failure schedule. -/
theorem step_rejects_ok_variants (node : EchoNode) (input : Message) (now : Nat)
    (sched : List Bool) (h : input.body.payload.isOk = true) :
    step node input now sched
      = (.error (okVariantError input.body.payload), node, []) := by
  obtain ⟨s, d, mid, irt, p⟩ := input
  cases p <;> first
    | exact Bool.noConfusion h
    | rfl

/-- C3 witness: feeding a concrete `echo_ok` message to a node with
counter 0 fails with the `EchoOk` bail message, zero output and counter
still 0. -/
theorem step_rejects_ok_variants_witness :
    step { id := 0 } sampleEchoOk 0 [] =
      (.error "Received unexpected EchoOk message!", { id := 0 }, []) :=
  step_rejects_ok_variants { id := 0 } sampleEchoOk 0 [] rfl

/-- C4: running any sequence of N request messages (init/echo/generate)
with all writes succeeding succeeds, leaves the counter at its initial
value plus N, and the k-th emitted reply (0-indexed) carries
`msg_id = initial + k` — i.e. the k-th reply 1-indexed carries
initial + (k-1). -/
theorem run_counter_monotonicity (node : EchoNode) (inputs : List (Message × Nat))
    (hreq : ∀ p ∈ inputs, (p.1).body.payload.isRequest = true) :
    (run node inputs).1 = .ok () ∧
    ((run node inputs).2.1).id = node.id + inputs.length ∧
    (replies (run node inputs).2.2).map replyMsgId
      = (List.range inputs.length).map (fun k => some (Json.num (node.id + k))) := by
  induction inputs generalizing node with
  | nil => exact ⟨rfl, by simp [run], by simp [run, replies]⟩
  | cons hd tl ih =>
      obtain ⟨m, now⟩ := hd
      have hm : m.body.payload.isRequest = true := hreq _ (List.mem_cons_self _ _)
      have htl : ∀ p ∈ tl, (p.1).body.payload.isRequest = true :=
        fun p hp => hreq p (List.mem_cons_of_mem _ hp)
      obtain ⟨ih1, ih2, ih3⟩ := ih { id := node.id + 1 } htl
      rcases hrun : run { id := node.id + 1 } tl with ⟨r, node2, chunks2⟩
      rw [hrun] at ih1 ih2 ih3
      simp only at ih1 ih2 ih3
      have hstep := step_request_eq node m now hm
      have hrunEq : run node ((m, now) :: tl)
          = (r, node2, [Chunk.jsonChunk (serializeJson (mkReply node m now)),
                        Chunk.newline] ++ chunks2) := by
        simp only [run, hstep, hrun]
      refine ⟨?_, ?_, ?_⟩ <;> rw [hrunEq]
      · exact ih1
      · simp only [List.length_cons]
        omega
      · simp only [List.cons_append, List.nil_append, replies, List.map_cons,
          replyMsgId_serialize, mkReply, serializeOptNat, ih3, List.length_cons,
          List.range_succ_eq_map, List.map_map]
        refine congrArg₂ List.cons (by simp) ?_
        simp only [List.append_eq, List.nil_append, ih3]
        apply List.map_congr_left
        intro k hk
        have hadd : node.id + 1 + k = node.id + (k + 1) := by omega
        simp [Function.comp, hadd]

/-- C4 witness: an init followed by an echo on a fresh node succeeds,
brings the counter from 0 to 2, and the two replies carry
`msg_id = 0` and `msg_id = 1`. -/
theorem run_counter_monotonicity_witness :
    (run { id := 0 } [(sampleInit, 0), (sampleEcho, 0)]).1 = .ok () ∧
    ((run { id := 0 } [(sampleInit, 0), (sampleEcho, 0)]).2.1).id = 0 + 2 ∧
    (replies (run { id := 0 } [(sampleInit, 0), (sampleEcho, 0)]).2.2).map replyMsgId
      = (List.range 2).map (fun k => some (Json.num (0 + k))) :=
  run_counter_monotonicity { id := 0 } [(sampleInit, 0), (sampleEcho, 0)] (by decide)

/-- C5: parsing the serialized form of any valid `Message` (all six payload
variants, `msg_id` and `in_reply_to` each present or absent) reproduces an
equal `Message`. -/
theorem parse_serialize_roundtrip (m : Message) :
    parseMessage (serializeJson m) = .ok m := by
  obtain ⟨src, dest, mid, irt, p⟩ := m
  cases p <;> cases mid <;> cases irt <;>
    first
      | rfl
      | (simp [parseMessage, serializeJson, parsePayload, Json.lookup, jsonLookup,
               payloadFields, serializeOptNat, parseStr, parseOptNat, parseStrList,
               parseStrListAux_map])

/-- C6 counterexample: the claim conjoins (a) differing counters with fixed
second and destination give differing identifiers with (b) some pair of
differing (destination, counter) inputs with identical counter rendering
can collide.  Part (b) is false — the generator is injective in
(destination, counter) whenever the counter renderings agree, since the
counter is the final underscore-separated component — so the conjunction
is false. -/
theorem gen_unique_id_collision_claim_false :
    ¬ ((∀ (ts : Nat) (d : String) (c1 c2 : Nat),
          c1 ≠ c2 → gen_unique_id ts d c1 ≠ gen_unique_id ts d c2) ∧
       (∃ (ts : Nat) (d1 : String) (c1 : Nat) (d2 : String) (c2 : Nat),
          (d1, c1) ≠ (d2, c2) ∧ natToString c1 = natToString c2 ∧
          gen_unique_id ts d1 c1 = gen_unique_id ts d2 c2)) := by
  rintro ⟨-, ts, d1, c1, d2, c2, hne, hc, h⟩
  obtain ⟨hd, hcc⟩ := gen_unique_id_full_inj hc h
  exact hne (by rw [hd, hcc])

/-- C6 (amended): for a fixed wall-clock second and destination, differing
counter values always produce differing identifiers; and for differing
(destination, counter) pairs with identical counter rendering the
identifiers never collide (within a fixed second the generator is
injective there) — contrary to the documented collision limitation. -/
theorem gen_unique_id_distinct :
    (∀ (ts : Nat) (d : String) (c1 c2 : Nat),
       c1 ≠ c2 → gen_unique_id ts d c1 ≠ gen_unique_id ts d c2) ∧
    (∀ (ts : Nat) (d1 : String) (c1 : Nat) (d2 : String) (c2 : Nat),
       natToString c1 = natToString c2 →
       gen_unique_id ts d1 c1 = gen_unique_id ts d2 c2 → d1 = d2 ∧ c1 = c2) := by
  constructor
  · intro ts d c1 c2 hne h
    exact hne (gen_unique_id_counter_inj h)
  · intro ts d1 c1 d2 c2 hc h
    exact gen_unique_id_full_inj hc h

/-- C6 witness: within second 5 and destination "n1", counters 1 and 2
give differing identifiers. -/
theorem gen_unique_id_distinct_witness :
    gen_unique_id 5 "n1" 1 ≠ gen_unique_id 5 "n1" 2 :=
  gen_unique_id_distinct.1 5 "n1" 1 2 (by decide)

/-- C7: the generator returns exactly the string
`{seconds}_{destination}_{counter}` — the spec-modelled format — with the
three unpadded fields joined by single underscores, in that order. -/
theorem gen_unique_id_follows_spec_format (curr_ts : Nat) (d : String) (id : Nat) :
    gen_unique_id curr_ts d id = specGenerateId curr_ts d id := rfl

/-- C8: for every request input that produces a reply, the emitted reply's
`in_reply_to` equals the request's `msg_id` — equal to X when the request
carries `msg_id = X`, absent when the request carries none. -/
theorem reply_correlates_request (node : EchoNode) (input : Message) (now : Nat)
    (h : input.body.payload.isRequest = true) :
    ∃ r : Message,
      (step node input now []).2.2 = [Chunk.jsonChunk (serializeJson r), Chunk.newline] ∧
      r.body.in_reply_to = input.body.msg_id := by
  refine ⟨mkReply node input now, ?_, rfl⟩
  rw [step_request_eq node input now h]

/-- C8 witness: the reply to the concrete echo request with `msg_id = 2`
carries `in_reply_to = some 2`. -/
theorem reply_correlates_request_witness :
    ∃ r : Message,
      (step { id := 0 } sampleEcho 0 []).2.2
        = [Chunk.jsonChunk (serializeJson r), Chunk.newline] ∧
      r.body.in_reply_to = sampleEcho.body.msg_id :=
  reply_correlates_request { id := 0 } sampleEcho 0 rfl

/-- C9: every serialized message `step` ever writes to the output stream —
for any input, counter, time and write-failure schedule — is the
serialization of a message whose payload is an `_ok` variant; no emitted
message carries `init`, `echo` or `generate`. -/
theorem emitted_payloads_are_ok (node : EchoNode) (input : Message) (now : Nat)
    (sched : List Bool) (j : Json)
    (h : Chunk.jsonChunk j ∈ (step node input now sched).2.2) :
    ∃ r : Message, j = serializeJson r ∧ r.body.payload.isOk = true := by
  obtain ⟨s, d, mid, irt, p⟩ := input
  cases p <;>
    first
      | cases h
      | (simp only [step] at h
         split at h <;> split at h <;> simp at h <;> exact ⟨_, h, rfl⟩)

/-- C9 witness: the message written while serving the concrete echo
request is the serialization of an `echo_ok` reply. -/
theorem emitted_payloads_are_ok_witness :
    ∃ r : Message,
      serializeJson sampleEchoReply = serializeJson r ∧
      r.body.payload.isOk = true :=
  emitted_payloads_are_ok { id := 0 } sampleEcho 0 []
    (serializeJson sampleEchoReply)
    (List.Mem.head _)

/-- C10: for inputs whose payload is `init` or `echo`, `step` does not read
the wall clock: two runs from equal counter values on the equal input emit
identical output chunks, return the same result, and end with equal
counters, whatever the times. -/
theorem step_time_oblivious (node : EchoNode) (input : Message) (sched : List Bool)
    (now1 now2 : Nat) (h : input.body.payload.isInitOrEcho = true) :
    step node input now1 sched = step node input now2 sched := by
  obtain ⟨s, d, mid, irt, p⟩ := input
  cases p <;> first
    | exact Bool.noConfusion h
    | rfl

/-- C10 witness: serving the concrete echo request at times 0 and 99 gives
identical results. -/
theorem step_time_oblivious_witness :
    step { id := 0 } sampleEcho 0 [] = step { id := 0 } sampleEcho 99 [] :=
  step_time_oblivious { id := 0 } sampleEcho [] 0 99 rfl


